import Mathlib

/-!
Shallow embedding of `webborer`'s `client` package (`src/client/client.go`)
and proofs about its behavior.

The package wraps an injected HTTP executor (`httpClientInt`, a single
method `Do(req) (resp, err)`) with 401 Basic-authentication retry logic.
We model:

* headers as association lists of `(key, value)` pairs with Go's
  `Header.Get` / `Header.Add` / `Header.Set` semantics on canonical keys
  (all keys used by the code are already in canonical MIME form);
* `base64.StdEncoding.EncodeToString` over the UTF-8 bytes of a string;
* the executor as a function from the call index and the request to a
  `DoResult`; `Do`'s contract (a nil error comes with a non-nil response,
  which `RequestURL` relies on by dereferencing `resp.StatusCode`) is
  captured by the two constructors of `DoResult`;
* the injected `Client` member as either the concrete `*http.Client`
  (carrying its `CheckRedirect` field, with the policy function abstracted
  to an opaque identifier) or a substitute, which is what the type
  assertion in `SetCheckRedirect` inspects;
* the logging sink as a list of emitted messages returned alongside each
  result (the Go code only ever writes to it).

`RequestURL` returns, besides the Go function's `(resp, err)` pair, the
list of requests handed to the executor, the log messages emitted, and the
client state after the call (the `basicAuthStr` cache may be filled in).
-/

namespace Webborer

/-- Association-list model of `http.Header` restricted to canonical keys:
the pairs for one key, in insertion order, model that key's value slice. -/
abbrev Header := List (String × String)

/-- All values stored for key `k`, in order; models the slice `h[k]`. -/
def headerGetAll (h : Header) (k : String) : List String :=
  h.filterMap (fun p => if p.1 = k then some p.2 else none)

/-- Go `Header.Get`: the first value for `k`, or `""` when none is set. -/
def headerGet (h : Header) (k : String) : String :=
  (headerGetAll h k).headD ""

/-- Go `Header.Add`: appends `v` to the values of `k`. -/
def headerAdd (h : Header) (k v : String) : Header :=
  h ++ [(k, v)]

/-- Go `Header.Set`: replaces all values of `k` by the single value `v`. -/
def headerSet (h : Header) (k v : String) : Header :=
  (h.filter (fun p => p.1 ≠ k)) ++ [(k, v)]

/-- UTF-8 bytes of one character, as Go obtains them from `[]byte(s)`. -/
def utf8Bytes (c : Char) : List Nat :=
  let n := c.toNat
  if n < 128 then [n]
  else if n < 2048 then [192 + n / 64, 128 + n % 64]
  else if n < 65536 then [224 + n / 4096, 128 + (n / 64) % 64, 128 + n % 64]
  else [240 + n / 262144, 128 + (n / 4096) % 64, 128 + (n / 64) % 64, 128 + n % 64]

/-- UTF-8 bytes of a character list. -/
def bytesOfChars : List Char → List Nat
  | [] => []
  | c :: cs => utf8Bytes c ++ bytesOfChars cs

/-- UTF-8 bytes of a string, i.e. Go `[]byte(s)`. -/
def strBytes (s : String) : List Nat := bytesOfChars s.data

/-- The standard base64 alphabet used by `base64.StdEncoding`. -/
def b64Alphabet : List Char :=
  "ABCDEFGHIJKLMNOPQRSTUVWXYZabcdefghijklmnopqrstuvwxyz0123456789+/".data

/-- Character for a 6-bit group. -/
def b64Char (n : Nat) : Char := b64Alphabet.getD n 'A'

/-- Base64 encoding of a byte list with `=` padding, as
`base64.StdEncoding.EncodeToString` produces it. -/
def base64EncodeBytes : List Nat → List Char
  | [] => []
  | [b1] => [b64Char (b1 / 4), b64Char (b1 % 4 * 16), '=', '=']
  | [b1, b2] => [b64Char (b1 / 4), b64Char (b1 % 4 * 16 + b2 / 16),
                 b64Char (b2 % 16 * 4), '=']
  | b1 :: b2 :: b3 :: bs =>
      b64Char (b1 / 4) :: b64Char (b1 % 4 * 16 + b2 / 16) ::
      b64Char (b2 % 16 * 4 + b3 / 64) :: b64Char (b3 % 64) ::
      base64EncodeBytes bs

/-- Go `base64.StdEncoding.EncodeToString([]byte(s))`. -/
def base64Encode (s : String) : String :=
  String.mk (base64EncodeBytes (strBytes s))

/-- Go `strings.SplitN(s, " ", 2)[0]`: the text before the first space,
or all of `s` when it has no space. -/
def takeUntilSpace : List Char → List Char
  | [] => []
  | c :: cs => if c = ' ' then [] else c :: takeUntilSpace cs

/-- The scheme token of a `WWW-Authenticate` value: `pieces[0]` of
`strings.SplitN(authHeader, " ", 2)`. -/
def schemeToken (s : String) : String := String.mk (takeUntilSpace s.data)

/-- Go `unicode.ToLower` as far as the code can observe it. The code uses
the lowered string only in the comparison with the ASCII literal
`"basic"`. Among non-ASCII code points exactly two have an ASCII simple
lowercase mapping in the Unicode tables Go applies: U+0130 (Latin capital
letter I with dot above, which lowers to `i`) and U+212A (the Kelvin
sign, which lowers to `k`); every other non-ASCII rune lowers to a
non-ASCII rune, so mapping it to itself cannot change a comparison
against an ASCII string. ASCII runes lower via `Char.toLower`, which is
the ASCII mapping. -/
def goCharToLower (c : Char) : Char :=
  if c.toNat = 304 then 'i'
  else if c.toNat = 8490 then 'k'
  else c.toLower

/-- Go `strings.ToLower`: `unicode.ToLower` applied to every rune. -/
def strToLower (s : String) : String := String.mk (s.data.map goCharToLower)

/-- The dotted capital I (U+0130) lowers to the ASCII `i`, as in Go, so a
challenge scheme written `BASİC` counts as `basic`. -/
theorem strToLower_dotted_capital_i : strToLower "BASİC" = "basic" := by decide

/-- An HTTP request as this package uses it: method, target URL and
header set. -/
structure Request where
  method : String
  url : String
  header : Header
  deriving DecidableEq, Repr

/-- An HTTP response as this package observes it: status code and
header set. -/
structure Response where
  statusCode : Nat
  header : Header
  deriving DecidableEq, Repr

/-- Result of one `Do` call: either a response with a nil error, or a
non-nil error together with the (possibly nil) response beside it. -/
inductive DoResult where
  | ok : Response → DoResult
  | fail : Option Response → String → DoResult
  deriving DecidableEq, Repr

/-- The `CheckRedirect` field of a concrete `http.Client`; the policy
function itself is abstracted to an opaque identifier. -/
structure GoHTTPClient where
  checkRedirect : Option Nat
  deriving DecidableEq, Repr

/-- The injected `Client` member: the concrete `*http.Client`, or a
substitute (such as a test double) for which the type assertion in
`SetCheckRedirect` fails. -/
inductive ExecutorObj where
  | real : GoHTTPClient → ExecutorObj
  | mock : ExecutorObj
  deriving DecidableEq, Repr

/-- The `httpClient` struct of `src/client/client.go`. The `Do` behavior
of the `Client` member is supplied separately to `RequestURL` as a
function from call index and request to result. -/
structure httpClient where
  Client : ExecutorObj
  UserAgent : String
  HTTPUsername : String
  HTTPPassword : String
  basicAuthStr : String
  deriving DecidableEq, Repr

/-- An executor behavior: the result `Do` returns for the `n`-th call
(0-based) of one `RequestURL` invocation, given the request sent. -/
abbrev Exec := Nat → Request → DoResult

/-- `makeRequest`: a fresh request for `u` with the `User-Agent` header
set to the configured value. -/
def makeRequest (c : httpClient) (u : String) (method : String) : Request :=
  { method := method, url := u, header := headerSet [] "User-Agent" c.UserAgent }

/-- `getBasicAuthStr`: returns the cached base64 `username:password`
string, computing and storing it when the cache is empty. Returns the
string together with the (possibly updated) client. -/
def getBasicAuthStr (c : httpClient) : String × httpClient :=
  if c.basicAuthStr ≠ "" then (c.basicAuthStr, c)
  else (base64Encode (c.HTTPUsername ++ ":" ++ c.HTTPPassword),
        { c with basicAuthStr := base64Encode (c.HTTPUsername ++ ":" ++ c.HTTPPassword) })

/-- `addAuthHeader`: parses the challenge's scheme token; for `basic`
(case-insensitively) adds the `Authorization` header and returns no
error, otherwise returns a descriptive error and leaves the request
alone. Returns `(error, request, client)`. -/
def addAuthHeader (c : httpClient) (req : Request) (authHeader : String) :
    Option String × Request × httpClient :=
  if strToLower (schemeToken authHeader) = "basic" then
    (none,
     { req with header := headerAdd req.header "Authorization"
                  ("Basic " ++ (getBasicAuthStr c).1) },
     (getBasicAuthStr c).2)
  else
    (some ("Unsupported WWW-Authenticate Method: " ++ schemeToken authHeader), req, c)

/-- Everything one `RequestURL` call produces: the returned response and
error, the requests handed to the executor in order, the log messages
emitted, and the client state afterwards. -/
structure RunResult where
  resp : Option Response
  err : Option String
  sends : List Request
  logs : List String
  client : httpClient
  deriving DecidableEq, Repr

/-- `RequestURL`: sends a GET request for `u`; on a 401 response with a
challenge, available credentials and a supported scheme, retries once
with an `Authorization` header; all other combinations return the
current response. -/
def RequestURL (c : httpClient) (exec : Exec) (u : String) : RunResult :=
  match exec 0 (makeRequest c u "GET") with
  | .fail r e => ⟨r, some e, [makeRequest c u "GET"], [], c⟩
  | .ok resp =>
    if resp.statusCode = 401 then
      if headerGet resp.header "WWW-Authenticate" = "" then
        ⟨some resp, none, [makeRequest c u "GET"], [], c⟩
      else if c.HTTPUsername = "" ∧ c.HTTPPassword = "" then
        ⟨some resp, none, [makeRequest c u "GET"], [], c⟩
      else
        match addAuthHeader c (makeRequest c u "GET")
            (headerGet resp.header "WWW-Authenticate") with
        | (some e, _, c2) => ⟨some resp, none, [makeRequest c u "GET"], [e], c2⟩
        | (none, req2, c2) =>
          match exec 1 req2 with
          | .fail r e => ⟨r, some e, [makeRequest c u "GET", req2], [], c2⟩
          | .ok resp2 => ⟨some resp2, none, [makeRequest c u "GET", req2], [], c2⟩
    else ⟨some resp, none, [makeRequest c u "GET"], [], c⟩

/-- `SetCheckRedirect`: installs the policy on the concrete
`http.Client`; when the type assertion fails, logs and leaves the client
untouched. Returns the client together with the log messages emitted. -/
def SetCheckRedirect (c : httpClient) (checker : Nat) : httpClient × List String :=
  match c.Client with
  | .real g => ({ c with Client := .real { g with checkRedirect := some checker } }, [])
  | .mock => (c, ["Unable to set CheckRedirect, type assertion failed."])

/-- The cache invariant of the spec: `basicAuthStr` is empty or is
exactly the base64 encoding of `username:password`. -/
def AuthCacheInv (c : httpClient) : Prop :=
  c.basicAuthStr = "" ∨
    c.basicAuthStr = base64Encode (c.HTTPUsername ++ ":" ++ c.HTTPPassword)

instance (c : httpClient) : Decidable (AuthCacheInv c) := by
  unfold AuthCacheInv; infer_instance

/-! ### Helper lemmas -/

theorem headerGetAll_add_self (h : Header) (k v : String) :
    headerGetAll (headerAdd h k v) k = headerGetAll h k ++ [v] := by
  simp [headerGetAll, headerAdd]

theorem headerGetAll_add_ne (h : Header) (k v k2 : String) (hk : k2 ≠ k) :
    headerGetAll (headerAdd h k v) k2 = headerGetAll h k2 := by
  simp [headerGetAll, headerAdd, Ne.symm hk]

theorem headerGetAll_set_ne (h : Header) (k v k2 : String) (hk : k2 ≠ k) :
    headerGetAll (headerSet h k v) k2 = headerGetAll h k2 := by
  simp only [headerGetAll, headerSet, List.filterMap_append]
  have h2 : List.filterMap (fun p => if p.1 = k2 then some p.2 else none) [(k, v)]
      = ([] : List String) := by
    simp [Ne.symm hk]
  rw [h2, List.append_nil]
  induction h with
  | nil => rfl
  | cons q qs ih =>
    simp only [List.filter_cons, List.filterMap_cons]
    by_cases hq : q.1 = k
    · have hq2 : (if q.1 = k2 then some q.2 else none) = (none : Option String) :=
        if_neg (by rw [hq]; exact Ne.symm hk)
      rw [hq2]
      have hb : (decide (q.1 ≠ k)) = false := by simp [hq]
      rw [hb]
      simpa using ih
    · have hb : (decide (q.1 ≠ k)) = true := by simp [hq]
      rw [hb]
      simp only [decide_True, if_true, List.filterMap_cons]
      rw [ih]

theorem utf8Bytes_ne_nil (c : Char) : utf8Bytes c ≠ [] := by
  unfold utf8Bytes
  dsimp only
  split
  · simp
  · split
    · simp
    · split <;> simp

theorem bytesOfChars_append (l1 l2 : List Char) :
    bytesOfChars (l1 ++ l2) = bytesOfChars l1 ++ bytesOfChars l2 := by
  induction l1 with
  | nil => simp [bytesOfChars]
  | cons c cs ih => simp [bytesOfChars, ih]

theorem base64EncodeBytes_ne_nil (l : List Nat) (h : l ≠ []) :
    base64EncodeBytes l ≠ [] := by
  match l with
  | [] => exact absurd rfl h
  | [b1] => simp [base64EncodeBytes]
  | [b1, b2] => simp [base64EncodeBytes]
  | b1 :: b2 :: b3 :: bs => simp [base64EncodeBytes]

theorem base64Encode_userpass_ne (u p : String) :
    base64Encode (u ++ ":" ++ p) ≠ "" := by
  intro h
  have hd : base64EncodeBytes (strBytes (u ++ ":" ++ p)) = [] := congrArg String.data h
  apply base64EncodeBytes_ne_nil _ _ hd
  show bytesOfChars (u ++ ":" ++ p).data ≠ []
  have hsplit : (u ++ ":" ++ p).data = u.data ++ (":".data ++ p.data) := by
    simp [String.data_append]
  rw [hsplit, bytesOfChars_append, bytesOfChars_append]
  simp [bytesOfChars, utf8Bytes]

theorem getBasicAuthStr_fst (c : httpClient) (h : AuthCacheInv c) :
    (getBasicAuthStr c).1 = base64Encode (c.HTTPUsername ++ ":" ++ c.HTTPPassword) := by
  unfold getBasicAuthStr
  rcases h with h | h
  · rw [h]; simp
  · split
    · exact h
    · rfl

theorem getBasicAuthStr_cached (c : httpClient) (h : c.basicAuthStr ≠ "") :
    getBasicAuthStr c = (c.basicAuthStr, c) := by
  unfold getBasicAuthStr; rw [if_pos h]

theorem getBasicAuthStr_inv (c : httpClient) (h : AuthCacheInv c) :
    AuthCacheInv (getBasicAuthStr c).2 := by
  unfold getBasicAuthStr
  split
  · exact h
  · right; rfl

theorem getBasicAuthStr_fields (c : httpClient) :
    (getBasicAuthStr c).2.HTTPUsername = c.HTTPUsername ∧
      (getBasicAuthStr c).2.HTTPPassword = c.HTTPPassword := by
  unfold getBasicAuthStr
  split <;> exact ⟨rfl, rfl⟩

theorem addAuthHeader_client_cases (c : httpClient) (req : Request) (a : String) :
    (addAuthHeader c req a).2.2 = c ∨ (addAuthHeader c req a).2.2 = (getBasicAuthStr c).2 := by
  unfold addAuthHeader
  split
  · right; rfl
  · left; rfl

theorem makeRequest_auth_empty (c : httpClient) (u m : String) :
    headerGetAll (makeRequest c u m).header "Authorization" = [] := by
  unfold makeRequest
  rw [headerGetAll_set_ne _ _ _ _ (by decide)]
  rfl

theorem schemeToken_of_basic (a : String) (h : strToLower (schemeToken a) = "basic") :
    a ≠ "" := by
  intro h0
  rw [h0] at h
  exact absurd h (by decide)

/-! ### Claim theorems -/

/-- C2: when the executor's first send returns a response whose status is
not 401, `RequestURL` returns exactly that response with nil error, sends
exactly one request, logs nothing and leaves the client unchanged. -/
theorem requestURL_non401_passthrough (c : httpClient) (exec : Exec) (u : String)
    (resp : Response)
    (h1 : exec 0 (makeRequest c u "GET") = .ok resp)
    (h2 : resp.statusCode ≠ 401) :
    RequestURL c exec u = ⟨some resp, none, [makeRequest c u "GET"], [], c⟩ := by
  unfold RequestURL
  rw [h1]
  simp [h2]

theorem requestURL_non401_passthrough_witness :
    RequestURL ⟨.mock, "ua", "user", "pass", ""⟩ (fun _ _ => .ok ⟨200, []⟩) "http://x/"
      = ⟨some ⟨200, []⟩, none,
         [⟨"GET", "http://x/", [("User-Agent", "ua")]⟩], [],
         ⟨.mock, "ua", "user", "pass", ""⟩⟩ := by
  have := requestURL_non401_passthrough ⟨.mock, "ua", "user", "pass", ""⟩
    (fun _ _ => .ok ⟨200, []⟩) "http://x/" ⟨200, []⟩ rfl (by decide)
  simpa [makeRequest, headerSet] using this

/-- C5: when the first send returns a 401 whose `WWW-Authenticate` header
is absent or empty, `RequestURL` returns that original 401 response with
nil error after exactly one send. -/
theorem requestURL_missing_challenge (c : httpClient) (exec : Exec) (u : String)
    (resp : Response)
    (h1 : exec 0 (makeRequest c u "GET") = .ok resp)
    (h401 : resp.statusCode = 401)
    (habs : headerGet resp.header "WWW-Authenticate" = "") :
    RequestURL c exec u = ⟨some resp, none, [makeRequest c u "GET"], [], c⟩ := by
  unfold RequestURL
  rw [h1]
  simp [h401, habs]

theorem requestURL_missing_challenge_witness :
    RequestURL ⟨.mock, "ua", "user", "pass", ""⟩ (fun _ _ => .ok ⟨401, []⟩) "http://x/"
      = ⟨some ⟨401, []⟩, none,
         [⟨"GET", "http://x/", [("User-Agent", "ua")]⟩], [],
         ⟨.mock, "ua", "user", "pass", ""⟩⟩ := by
  have := requestURL_missing_challenge ⟨.mock, "ua", "user", "pass", ""⟩
    (fun _ _ => .ok ⟨401, []⟩) "http://x/" ⟨401, []⟩ rfl rfl (by decide)
  simpa [makeRequest, headerSet] using this

/-- C3: when the first send returns a 401 carrying a non-empty
`WWW-Authenticate` header whose scheme token is not `basic`
(case-insensitively) and credentials are configured, `RequestURL` logs
the unsupported-scheme failure and returns the original 401 response with
nil error after exactly one send. -/
theorem requestURL_unsupported_scheme (c : httpClient) (exec : Exec) (u : String)
    (resp : Response)
    (h1 : exec 0 (makeRequest c u "GET") = .ok resp)
    (h401 : resp.statusCode = 401)
    (hne : headerGet resp.header "WWW-Authenticate" ≠ "")
    (hscheme : strToLower (schemeToken (headerGet resp.header "WWW-Authenticate")) ≠ "basic")
    (hcred : ¬ (c.HTTPUsername = "" ∧ c.HTTPPassword = "")) :
    RequestURL c exec u =
      ⟨some resp, none, [makeRequest c u "GET"],
       ["Unsupported WWW-Authenticate Method: "
          ++ schemeToken (headerGet resp.header "WWW-Authenticate")], c⟩ := by
  unfold RequestURL
  rw [h1]
  simp [h401, hne, hcred, addAuthHeader, hscheme]

theorem requestURL_unsupported_scheme_witness :
    RequestURL ⟨.mock, "ua", "user", "pass", ""⟩
        (fun _ _ => .ok ⟨401, [("WWW-Authenticate", "Digest realm=x")]⟩) "http://x/"
      = ⟨some ⟨401, [("WWW-Authenticate", "Digest realm=x")]⟩, none,
         [⟨"GET", "http://x/", [("User-Agent", "ua")]⟩],
         ["Unsupported WWW-Authenticate Method: Digest"],
         ⟨.mock, "ua", "user", "pass", ""⟩⟩ := by
  have := requestURL_unsupported_scheme ⟨.mock, "ua", "user", "pass", ""⟩
    (fun _ _ => .ok ⟨401, [("WWW-Authenticate", "Digest realm=x")]⟩) "http://x/"
    ⟨401, [("WWW-Authenticate", "Digest realm=x")]⟩ rfl rfl (by decide) (by decide) (by decide)
  simpa [makeRequest, headerSet, headerGet, headerGetAll, schemeToken, takeUntilSpace]
    using this

/-- C4: a non-nil executor error is always propagated: on the first send
it is returned at once with its accompanying response and no retry ever
happens; on the retry send it is likewise returned with its accompanying
response, and no third send happens. -/
theorem requestURL_transport_error_propagation :
    (∀ (c : httpClient) (exec : Exec) (u : String) (r : Option Response) (e : String),
       exec 0 (makeRequest c u "GET") = .fail r e →
       RequestURL c exec u = ⟨r, some e, [makeRequest c u "GET"], [], c⟩) ∧
    (∀ (c : httpClient) (exec : Exec) (u : String) (resp : Response)
       (r : Option Response) (e : String),
       exec 0 (makeRequest c u "GET") = .ok resp →
       resp.statusCode = 401 →
       strToLower (schemeToken (headerGet resp.header "WWW-Authenticate")) = "basic" →
       ¬ (c.HTTPUsername = "" ∧ c.HTTPPassword = "") →
       (∀ req, exec 1 req = .fail r e) →
       (RequestURL c exec u).resp = r ∧ (RequestURL c exec u).err = some e ∧
         (RequestURL c exec u).sends.length = 2) := by
  constructor
  · intro c exec u r e h1
    unfold RequestURL
    rw [h1]
  · intro c exec u resp r e h1 h401 hscheme hcred h2
    have hne : headerGet resp.header "WWW-Authenticate" ≠ "" :=
      schemeToken_of_basic _ hscheme
    unfold RequestURL
    rw [h1]
    simp [h401, hne, hcred, addAuthHeader, hscheme, h2]

theorem requestURL_transport_error_propagation_witness :
    (RequestURL ⟨.mock, "ua", "user", "pass", ""⟩ (fun _ _ => .fail none "dial fail") "http://x/"
       = ⟨none, some "dial fail",
          [⟨"GET", "http://x/", [("User-Agent", "ua")]⟩], [],
          ⟨.mock, "ua", "user", "pass", ""⟩⟩) ∧
    ((RequestURL ⟨.mock, "ua", "user", "pass", ""⟩
        (fun n _ => if n = 0 then .ok ⟨401, [("WWW-Authenticate", "Basic realm=x")]⟩
                    else .fail none "reset") "http://x/").resp = none ∧
     (RequestURL ⟨.mock, "ua", "user", "pass", ""⟩
        (fun n _ => if n = 0 then .ok ⟨401, [("WWW-Authenticate", "Basic realm=x")]⟩
                    else .fail none "reset") "http://x/").err = some "reset" ∧
     (RequestURL ⟨.mock, "ua", "user", "pass", ""⟩
        (fun n _ => if n = 0 then .ok ⟨401, [("WWW-Authenticate", "Basic realm=x")]⟩
                    else .fail none "reset") "http://x/").sends.length = 2) := by
  constructor
  · have := requestURL_transport_error_propagation.1 ⟨.mock, "ua", "user", "pass", ""⟩
      (fun _ _ => .fail none "dial fail") "http://x/" none "dial fail" rfl
    simpa [makeRequest, headerSet] using this
  · exact requestURL_transport_error_propagation.2 ⟨.mock, "ua", "user", "pass", ""⟩
      (fun n _ => if n = 0 then .ok ⟨401, [("WWW-Authenticate", "Basic realm=x")]⟩
                  else .fail none "reset") "http://x/"
      ⟨401, [("WWW-Authenticate", "Basic realm=x")]⟩ none "reset"
      rfl rfl (by decide) (by decide) (fun _ => rfl)

/-- C1: on a 401 whose challenge scheme is `basic` (case-insensitively)
with at least one credential non-empty, `RequestURL` performs a second
send whose request carries `Authorization: Basic <base64(user:pass)>`,
and returns the second response with nil error. -/
theorem requestURL_basic_auth_retry (c : httpClient) (exec : Exec) (u : String)
    (resp resp2 : Response)
    (hinv : AuthCacheInv c)
    (h1 : exec 0 (makeRequest c u "GET") = .ok resp)
    (h401 : resp.statusCode = 401)
    (hscheme : strToLower (schemeToken (headerGet resp.header "WWW-Authenticate")) = "basic")
    (hcred : ¬ (c.HTTPUsername = "" ∧ c.HTTPPassword = ""))
    (h2 : ∀ req, exec 1 req = .ok resp2) :
    (RequestURL c exec u).resp = some resp2 ∧
    (RequestURL c exec u).err = none ∧
    ∃ req2, (RequestURL c exec u).sends = [makeRequest c u "GET", req2] ∧
      headerGetAll req2.header "Authorization"
        = ["Basic " ++ base64Encode (c.HTTPUsername ++ ":" ++ c.HTTPPassword)] := by
  have hne : headerGet resp.header "WWW-Authenticate" ≠ "" :=
    schemeToken_of_basic _ hscheme
  have hadd : addAuthHeader c (makeRequest c u "GET")
        (headerGet resp.header "WWW-Authenticate")
      = (none,
         { makeRequest c u "GET" with
             header := headerAdd (makeRequest c u "GET").header "Authorization"
               ("Basic " ++ (getBasicAuthStr c).1) },
         (getBasicAuthStr c).2) := by
    unfold addAuthHeader
    rw [if_pos hscheme]
  have hrun : RequestURL c exec u =
      ⟨some resp2, none,
       [makeRequest c u "GET",
        { makeRequest c u "GET" with
            header := headerAdd (makeRequest c u "GET").header "Authorization"
              ("Basic " ++ (getBasicAuthStr c).1) }],
       [], (getBasicAuthStr c).2⟩ := by
    unfold RequestURL
    rw [h1]
    dsimp only
    rw [if_pos h401, if_neg hne, if_neg hcred, hadd]
    dsimp only
    rw [h2]
  rw [hrun]
  refine ⟨rfl, rfl, _, rfl, ?_⟩
  rw [headerGetAll_add_self, makeRequest_auth_empty, getBasicAuthStr_fst c hinv]
  rfl

theorem requestURL_basic_auth_retry_witness :
    (RequestURL ⟨.mock, "ua", "user", "pass", ""⟩
       (fun n _ => if n = 0 then .ok ⟨401, [("WWW-Authenticate", "Basic realm=x")]⟩
                   else .ok ⟨200, []⟩) "http://x/").resp = some ⟨200, []⟩ ∧
    (RequestURL ⟨.mock, "ua", "user", "pass", ""⟩
       (fun n _ => if n = 0 then .ok ⟨401, [("WWW-Authenticate", "Basic realm=x")]⟩
                   else .ok ⟨200, []⟩) "http://x/").err = none ∧
    ∃ req2, (RequestURL ⟨.mock, "ua", "user", "pass", ""⟩
       (fun n _ => if n = 0 then .ok ⟨401, [("WWW-Authenticate", "Basic realm=x")]⟩
                   else .ok ⟨200, []⟩) "http://x/").sends
        = [makeRequest ⟨.mock, "ua", "user", "pass", ""⟩ "http://x/" "GET", req2] ∧
      headerGetAll req2.header "Authorization"
        = ["Basic " ++ base64Encode ("user" ++ ":" ++ "pass")] :=
  requestURL_basic_auth_retry ⟨.mock, "ua", "user", "pass", ""⟩
    (fun n _ => if n = 0 then .ok ⟨401, [("WWW-Authenticate", "Basic realm=x")]⟩
                else .ok ⟨200, []⟩) "http://x/"
    ⟨401, [("WWW-Authenticate", "Basic realm=x")]⟩ ⟨200, []⟩
    (by decide) rfl rfl (by decide) (by decide) (fun _ => rfl)

/-- C6 counterexample: it is not true that every `RequestURL` call makes
zero or two sends; a plain 200 response yields exactly one send. -/
theorem requestURL_send_count_cex :
    ¬ (∀ (c : httpClient) (exec : Exec) (u : String),
        (RequestURL c exec u).sends.length = 0 ∨
          (RequestURL c exec u).sends.length = 2) := by
  intro hall
  have h := hall ⟨.mock, "ua", "", "", ""⟩ (fun _ _ => .ok ⟨200, []⟩) "http://x/"
  revert h
  decide

/-- C6 amended: every `RequestURL` call invokes the executor either one
or two times before returning. -/
theorem requestURL_send_count_one_or_two (c : httpClient) (exec : Exec) (u : String) :
    (RequestURL c exec u).sends.length = 1 ∨
      (RequestURL c exec u).sends.length = 2 := by
  unfold RequestURL
  repeat' split
  all_goals first | (left; rfl) | (right; rfl)

theorem requestURL_client_cases (c : httpClient) (exec : Exec) (u : String) :
    (RequestURL c exec u).client = c ∨
      (RequestURL c exec u).client = (getBasicAuthStr c).2 := by
  unfold RequestURL
  split
  · left; rfl
  · next resp heq0 =>
    split
    · split
      · left; rfl
      · split
        · left; rfl
        · split
          · next e x c2 heq =>
            have h := addAuthHeader_client_cases c (makeRequest c u "GET")
              (headerGet resp.header "WWW-Authenticate")
            rw [heq] at h
            simpa using h
          · next req2 c2 heq =>
            have h := addAuthHeader_client_cases c (makeRequest c u "GET")
              (headerGet resp.header "WWW-Authenticate")
            rw [heq] at h
            split
            · simpa using h
            · simpa using h
    · left; rfl

/-- C7: the cache invariant (`basicAuthStr` empty or equal to the base64
encoding of `username:password`) is preserved, with the credentials
unchanged, by `getBasicAuthStr`, `addAuthHeader`, `RequestURL` and
`SetCheckRedirect`. -/
theorem clientOps_preserve_authCacheInv :
    (∀ c : httpClient, AuthCacheInv c →
       AuthCacheInv (getBasicAuthStr c).2 ∧
       (getBasicAuthStr c).2.HTTPUsername = c.HTTPUsername ∧
       (getBasicAuthStr c).2.HTTPPassword = c.HTTPPassword) ∧
    (∀ (c : httpClient) (req : Request) (a : String), AuthCacheInv c →
       AuthCacheInv (addAuthHeader c req a).2.2 ∧
       (addAuthHeader c req a).2.2.HTTPUsername = c.HTTPUsername ∧
       (addAuthHeader c req a).2.2.HTTPPassword = c.HTTPPassword) ∧
    (∀ (c : httpClient) (exec : Exec) (u : String), AuthCacheInv c →
       AuthCacheInv (RequestURL c exec u).client ∧
       (RequestURL c exec u).client.HTTPUsername = c.HTTPUsername ∧
       (RequestURL c exec u).client.HTTPPassword = c.HTTPPassword) ∧
    (∀ (c : httpClient) (p : Nat), AuthCacheInv c →
       AuthCacheInv (SetCheckRedirect c p).1 ∧
       (SetCheckRedirect c p).1.HTTPUsername = c.HTTPUsername ∧
       (SetCheckRedirect c p).1.HTTPPassword = c.HTTPPassword) := by
  refine ⟨?_, ?_, ?_, ?_⟩
  · intro c h
    exact ⟨getBasicAuthStr_inv c h, (getBasicAuthStr_fields c).1,
      (getBasicAuthStr_fields c).2⟩
  · intro c req a h
    rcases addAuthHeader_client_cases c req a with hc | hc <;> rw [hc]
    · exact ⟨h, rfl, rfl⟩
    · exact ⟨getBasicAuthStr_inv c h, (getBasicAuthStr_fields c).1,
        (getBasicAuthStr_fields c).2⟩
  · intro c exec u h
    rcases requestURL_client_cases c exec u with hc | hc <;> rw [hc]
    · exact ⟨h, rfl, rfl⟩
    · exact ⟨getBasicAuthStr_inv c h, (getBasicAuthStr_fields c).1,
        (getBasicAuthStr_fields c).2⟩
  · intro c p h
    unfold SetCheckRedirect
    split
    · exact ⟨h, rfl, rfl⟩
    · exact ⟨h, rfl, rfl⟩

theorem clientOps_preserve_authCacheInv_witness :
    AuthCacheInv (getBasicAuthStr ⟨.mock, "ua", "u", "p", ""⟩).2 ∧
    AuthCacheInv (addAuthHeader ⟨.mock, "ua", "u", "p", ""⟩
      ⟨"GET", "http://x/", []⟩ "Basic r").2.2 ∧
    AuthCacheInv (RequestURL ⟨.mock, "ua", "u", "p", ""⟩
      (fun _ _ => .ok ⟨200, []⟩) "http://x/").client ∧
    AuthCacheInv (SetCheckRedirect ⟨.mock, "ua", "u", "p", ""⟩ 3).1 :=
  ⟨(clientOps_preserve_authCacheInv.1 _ (by decide)).1,
   (clientOps_preserve_authCacheInv.2.1 _ ⟨"GET", "http://x/", []⟩ "Basic r" (by decide)).1,
   (clientOps_preserve_authCacheInv.2.2.1 _ (fun _ _ => .ok ⟨200, []⟩) "http://x/"
     (by decide)).1,
   (clientOps_preserve_authCacheInv.2.2.2 _ 3 (by decide)).1⟩

/-- C8: `getBasicAuthStr` returns the base64 encoding of
`username:password`, stores it in the cache field, and a second call
returns the identical pair straight from the cache (the cache is
non-empty, so the computing branch is not taken again). -/
theorem getBasicAuthStr_memoized (c : httpClient) (h : AuthCacheInv c) :
    (getBasicAuthStr c).1 = base64Encode (c.HTTPUsername ++ ":" ++ c.HTTPPassword) ∧
    (getBasicAuthStr c).2.basicAuthStr = (getBasicAuthStr c).1 ∧
    (getBasicAuthStr c).2.basicAuthStr ≠ "" ∧
    getBasicAuthStr (getBasicAuthStr c).2 = getBasicAuthStr c := by
  have h1 := getBasicAuthStr_fst c h
  have h2 : (getBasicAuthStr c).2.basicAuthStr = (getBasicAuthStr c).1 := by
    by_cases hb : c.basicAuthStr = ""
    · unfold getBasicAuthStr
      rw [if_neg (by simp [hb])]
    · rw [getBasicAuthStr_cached c hb]
  have hne : (getBasicAuthStr c).2.basicAuthStr ≠ "" := by
    rw [h2, h1]
    exact base64Encode_userpass_ne _ _
  refine ⟨h1, h2, hne, ?_⟩
  rw [getBasicAuthStr_cached _ hne, h2]

theorem getBasicAuthStr_memoized_witness :
    (getBasicAuthStr ⟨.mock, "ua", "user", "pass", ""⟩).1 = "dXNlcjpwYXNz" ∧
    getBasicAuthStr (getBasicAuthStr ⟨.mock, "ua", "user", "pass", ""⟩).2
      = getBasicAuthStr ⟨.mock, "ua", "user", "pass", ""⟩ := by
  have h := getBasicAuthStr_memoized ⟨.mock, "ua", "user", "pass", ""⟩ (by decide)
  exact ⟨by rw [h.1]; rfl, h.2.2.2⟩

/-- C9: `SetCheckRedirect` on a substitute executor only logs and leaves
the client exactly as it was, so later `RequestURL` calls behave
identically; on the concrete executor it installs the supplied policy. -/
theorem setCheckRedirect_spec :
    (∀ (c : httpClient) (p : Nat), c.Client = .mock →
       SetCheckRedirect c p
         = (c, ["Unable to set CheckRedirect, type assertion failed."]) ∧
       ∀ (exec : Exec) (u : String),
         RequestURL (SetCheckRedirect c p).1 exec u = RequestURL c exec u) ∧
    (∀ (c : httpClient) (g : GoHTTPClient) (p : Nat), c.Client = .real g →
       SetCheckRedirect c p = ({ c with Client := .real ⟨some p⟩ }, [])) := by
  constructor
  · intro c p hc
    have h1 : SetCheckRedirect c p
        = (c, ["Unable to set CheckRedirect, type assertion failed."]) := by
      unfold SetCheckRedirect
      rw [hc]
    exact ⟨h1, fun exec u => by rw [h1]⟩
  · intro c g p hc
    unfold SetCheckRedirect
    rw [hc]

theorem setCheckRedirect_spec_witness :
    (SetCheckRedirect ⟨.mock, "ua", "u", "p", ""⟩ 7
       = (⟨.mock, "ua", "u", "p", ""⟩,
          ["Unable to set CheckRedirect, type assertion failed."])) ∧
    (SetCheckRedirect ⟨.real ⟨none⟩, "ua", "u", "p", ""⟩ 7
       = (⟨.real ⟨some 7⟩, "ua", "u", "p", ""⟩, [])) :=
  ⟨(setCheckRedirect_spec.1 ⟨.mock, "ua", "u", "p", ""⟩ 7 rfl).1,
   setCheckRedirect_spec.2 ⟨.real ⟨none⟩, "ua", "u", "p", ""⟩ ⟨none⟩ 7 rfl⟩

/-- C10: `addAuthHeader` touches at most the `Authorization` header: on a
`basic` challenge it appends exactly one `Authorization` value, leaving
the method, the URL and every other header key untouched; when it
returns an error the request comes back entirely unchanged. -/
theorem addAuthHeader_frame :
    (∀ (c : httpClient) (req : Request) (a : String),
       strToLower (schemeToken a) = "basic" →
       (addAuthHeader c req a).2.1.method = req.method ∧
       (addAuthHeader c req a).2.1.url = req.url ∧
       headerGetAll (addAuthHeader c req a).2.1.header "Authorization"
         = headerGetAll req.header "Authorization"
             ++ ["Basic " ++ (getBasicAuthStr c).1] ∧
       ∀ k, k ≠ "Authorization" →
         headerGetAll (addAuthHeader c req a).2.1.header k
           = headerGetAll req.header k) ∧
    (∀ (c : httpClient) (req : Request) (a : String) (e : String),
       (addAuthHeader c req a).1 = some e → (addAuthHeader c req a).2.1 = req) := by
  constructor
  · intro c req a hs
    unfold addAuthHeader
    rw [if_pos hs]
    exact ⟨rfl, rfl, headerGetAll_add_self _ _ _,
      fun k hk => headerGetAll_add_ne _ _ _ _ hk⟩
  · intro c req a e he
    unfold addAuthHeader at he ⊢
    by_cases hs : strToLower (schemeToken a) = "basic"
    · rw [if_pos hs] at he
      cases he
    · rw [if_neg hs]

theorem addAuthHeader_frame_witness :
    ((addAuthHeader ⟨.mock, "ua", "u", "p", ""⟩
        ⟨"GET", "http://x/", [("User-Agent", "ua")]⟩ "Basic realm=x").2.1.method
      = "GET" ∧
     headerGetAll (addAuthHeader ⟨.mock, "ua", "u", "p", ""⟩
        ⟨"GET", "http://x/", [("User-Agent", "ua")]⟩
        "Basic realm=x").2.1.header "User-Agent" = ["ua"]) ∧
    (addAuthHeader ⟨.mock, "ua", "u", "p", ""⟩
        ⟨"GET", "http://x/", [("User-Agent", "ua")]⟩ "Digest realm=x").2.1
      = ⟨"GET", "http://x/", [("User-Agent", "ua")]⟩ := by
  constructor
  · constructor
    · exact (addAuthHeader_frame.1 ⟨.mock, "ua", "u", "p", ""⟩
        ⟨"GET", "http://x/", [("User-Agent", "ua")]⟩ "Basic realm=x" (by decide)).1
    · have h := (addAuthHeader_frame.1 ⟨.mock, "ua", "u", "p", ""⟩
        ⟨"GET", "http://x/", [("User-Agent", "ua")]⟩ "Basic realm=x"
        (by decide)).2.2.2 "User-Agent" (by decide)
      rw [h]
      decide
  · exact addAuthHeader_frame.2 ⟨.mock, "ua", "u", "p", ""⟩
      ⟨"GET", "http://x/", [("User-Agent", "ua")]⟩ "Digest realm=x"
      "Unsupported WWW-Authenticate Method: Digest" (by decide)

end Webborer
